import Mathlib

/-!
Shallow embedding of the S3 cleanup filter-and-delete engine from
`s3-scripts/s3_utils.py` and `s3-scripts/s3_cleaner.py`.

Modelling conventions:
- Python `datetime` values are modelled as `Int` timestamps in seconds;
  `timedelta(days\/hours\/minutes\/weeks = v)` is `v * 86400 \/ 3600 \/ 60 \/ 604800`
  seconds.  Python `int` is `Int`, list slices are explicit `take`\/`drop`.
- Optional Python arguments defaulting to `None` are `Option` values; Python
  truthiness tests (`if x:`) are modelled per type: an `int` is truthy when
  nonzero, a string when nonempty, a list when nonempty, a `datetime` always.
- The boto3 store is an oracle `List String → Except Unit (Nat × Nat)`
  mapping one batch-delete request (a chunk of keys) to either a transport
  error (the `except Exception` branch) or a response summarised by the pair
  `(len(response.Deleted), len(response.Errors))` — the code reads only the
  lengths of those two lists for its counts.
- `dateutil.parser.parse` (used for the `since` argument) is an oracle
  `String → Option Int`: `none` models an unparseable date raising.
- Logging, CSV report writing and the float field `total_size_mb` are side
  effects with no influence on the returned summary and are not modelled.
-/

namespace S3Scripts

/-- One object record as yielded by `S3Utils.list_objects` (from the
ListObjectsV2 pages): key, last-modified timestamp, size in bytes. -/
structure S3Object where
  key : String
  lastModified : Int
  size : Int
deriving DecidableEq, Repr

/-- Python truthiness of an optional int (`if x:` on `int` or `None`). -/
def intTruthy : Option Int → Bool
  | none => false
  | some n => n != 0

/-- Python truthiness of an optional string. -/
def strTruthy : Option String → Bool
  | none => false
  | some s => s != ""

/-- Python truthiness of an optional list. -/
def listTruthy {α : Type} : Option (List α) → Bool
  | none => false
  | some l => !l.isEmpty

/-- Python truthiness of an optional datetime: a datetime object is always
truthy, so this is just presence. -/
def dateTruthy : Option Int → Bool
  | none => false
  | some _ => true

/-- Does the second character list start with the first one. -/
def listStartsWith : List Char → List Char → Bool
  | [], _ => true
  | _ :: _, [] => false
  | a :: as, b :: bs => a == b && listStartsWith as bs

/-- Is the first character list a contiguous sublist of the second. -/
def subList (needle : List Char) : List Char → Bool
  | [] => needle.isEmpty
  | c :: rest => listStartsWith needle (c :: rest) || subList needle rest

/-- Python `needle in hay` on strings: contiguous substring containment. -/
def strIn (needle hay : String) : Bool := subList needle.toList hay.toList

/-- The per-object keep predicate of `S3FilterUtils.filter_objects`
(s3_utils.py lines 390-422): each `continue` of the Python loop is one
rejecting branch, in source order (time, size, exclude, include, suffix,
required key start).  `pfx` models the Python argument named after the
required leading key fragment (its Python name is a Lean keyword). -/
def filterKeep (min_date max_date : Option Int)
    (exclude_patterns include_patterns : Option (List String))
    (suffix pfx : Option String)
    (min_size max_size : Option Int) (o : S3Object) : Bool :=
  if dateTruthy min_date && decide (o.lastModified < min_date.getD 0) then false
  else if dateTruthy max_date && decide (o.lastModified > max_date.getD 0) then false
  else if intTruthy min_size && decide (o.size < min_size.getD 0) then false
  else if intTruthy max_size && decide (o.size > max_size.getD 0) then false
  else if listTruthy exclude_patterns
      && (exclude_patterns.getD []).any (fun p => strIn p o.key) then false
  else if listTruthy include_patterns
      && !((include_patterns.getD []).any (fun p => strIn p o.key)) then false
  else if strTruthy suffix && !(o.key.endsWith (suffix.getD "")) then false
  else if strTruthy pfx && !(o.key.startsWith (pfx.getD "")) then false
  else true

/-- `S3FilterUtils.filter_objects`: the generator is modelled as the list of
objects surviving the keep predicate, in input order. -/
def filter_objects (objects : List S3Object) (min_date max_date : Option Int)
    (exclude_patterns include_patterns : Option (List String))
    (suffix pfx : Option String) (min_size max_size : Option Int) :
    List S3Object :=
  objects.filter
    (filterKeep min_date max_date exclude_patterns include_patterns
      suffix pfx min_size max_size)

/-- Value of a digit string (most significant first), as folded up by a
decimal positional reading. -/
def digitsVal (l : List Char) : Nat :=
  l.foldl (fun acc c => acc * 10 + (c.toNat - 48)) 0

/-- Python `int(s)` restricted to canonical integer literals: an optional
sign followed by at least one digit.  `none` models `ValueError`. -/
def pyInt (s : String) : Option Int :=
  match s.toList with
  | [] => none
  | '-' :: rest =>
      if rest.isEmpty then none
      else if rest.all Char.isDigit then some (-(digitsVal rest : Int)) else none
  | '+' :: rest =>
      if rest.isEmpty then none
      else if rest.all Char.isDigit then some (digitsVal rest : Int) else none
  | l => if l.all Char.isDigit then some (digitsVal l : Int) else none

/-- Seconds per time unit, from the `delta_map` of
`S3FilterUtils.parse_time_filter`: d\/h\/m\/w are days, hours, minutes,
weeks.  `none` models a unit outside the map (the `ValueError` branch). -/
def timeUnitSeconds (u : Char) (value : Int) : Option Int :=
  if u = 'd' then some (value * 86400)
  else if u = 'h' then some (value * 3600)
  else if u = 'm' then some (value * 60)
  else if u = 'w' then some (value * 604800)
  else none

/-- `S3FilterUtils.parse_time_filter` (s3_utils.py lines 307-347).
`dtparse` is the `dateutil.parser.parse` oracle, `now` the timestamp
captured once at entry.  Returns `(min_date, max_date)`.  Both the failed
`int()` conversion and the unknown-unit branch raise `ValueError` wrapped
into the same invalid-time-format message, modelled as one error string. -/
def parse_time_filter (dtparse : String → Option Int) (now : Int)
    (older_than since : Option String) :
    Except String (Option Int × Option Int) :=
  let maxStep : Except String (Option Int) :=
    if strTruthy older_than then
      let s := older_than.getD ""
      match pyInt (s.dropRight 1) with
      | none => .error "invalid time format"
      | some value =>
          match timeUnitSeconds s.back.toLower value with
          | none => .error "invalid time format"
          | some delta => .ok (some (now - delta))
    else .ok none
  match maxStep with
  | .error e => .error e
  | .ok max_date =>
      if strTruthy since then
        match dtparse (since.getD "") with
        | none => .error "invalid date format"
        | some d => .ok (some d, max_date)
      else .ok (none, max_date)

/-- Byte multiplier of a size unit, lower-cased.  Modelled from the
humanfriendly library called by the source with default arguments
(`humanfriendly.parse_size(x)`): the default interpretation is decimal,
powers of 1000, for `KB`\/`MB`\/`GB`\/`TB`; binary powers of 1024 apply only
to the IEC spellings `KiB`\/`MiB`\/`GiB`\/`TiB`.  `none` models the
`InvalidSize` exception for an unknown unit. -/
def sizeUnitMultiplier (u : String) : Option Int :=
  if u = "" || u = "b" then some 1
  else if u = "k" || u = "kb" then some 1000
  else if u = "kib" then some 1024
  else if u = "m" || u = "mb" then some 1000000
  else if u = "mib" then some 1048576
  else if u = "g" || u = "gb" then some 1000000000
  else if u = "gib" then some 1073741824
  else if u = "t" || u = "tb" then some 1000000000000
  else if u = "tib" then some 1099511627776
  else none

/-- Modelled from the humanfriendly library documentation:
`humanfriendly.parse_size` on an integer numeral followed by an optional
unit, spaces ignored, unit matched case-insensitively with decimal
semantics by default (see `sizeUnitMultiplier`).  Restricted to integer
numerals; fractional size strings are outside this model.  `Except.error`
models the `InvalidSize` exception. -/
def parse_size (s : String) : Except String Int :=
  let chars := s.toList.filter (fun c => c ≠ ' ')
  let digits := chars.takeWhile Char.isDigit
  let unitChars := chars.dropWhile Char.isDigit
  if digits.isEmpty then .error "invalid size"
  else
    match sizeUnitMultiplier (String.mk (unitChars.map Char.toLower)) with
    | none => .error "invalid size"
    | some mult => .ok ((digitsVal digits : Int) * mult)

/-- `S3FilterUtils.parse_size_filter` (s3_utils.py lines 349-364):
each bound is parsed when its string is truthy, else left `None`. -/
def parse_size_filter (min_size max_size : Option String) :
    Except String (Option Int × Option Int) :=
  let minStep : Except String (Option Int) :=
    if strTruthy min_size then (parse_size (min_size.getD "")).map some
    else .ok none
  match minStep with
  | .error e => .error e
  | .ok min_bytes =>
      if strTruthy max_size then
        match parse_size (max_size.getD "") with
        | .error e => .error e
        | .ok b => .ok (min_bytes, some b)
      else .ok (min_bytes, none)

/-- The start indices of Python `range(0, stop, step)`. -/
def pyRangeStep (stop step : Nat) : List Nat :=
  (List.range ((stop + step - 1) / step)).map (· * step)

/-- The consecutive chunks `keys[i:i+n]` for `i in range(0, len(keys), n)`,
exactly the loop of `S3Utils.delete_objects_batch`: `keys[i:i+n]` is
`(keys.drop i).take n`. -/
def chunksOf {α : Type} (n : Nat) (l : List α) : List (List α) :=
  (pyRangeStep l.length n).map (fun i => (l.drop i).take n)

/-- Aggregate outcome of `S3Utils.delete_objects_batch`, plus the trace of
batch-delete requests issued to the store, in issue order. -/
structure BatchResult where
  successful : Nat
  failed : Nat
  calls : List (List String)
deriving DecidableEq, Repr

/-- One iteration of the chunk loop of `S3Utils.delete_objects_batch`
(s3_utils.py lines 209-228): a successful store call adds the lengths of the
response `Deleted` and `Errors` lists to the two counters; a transport
exception counts the whole chunk as failed.  Either way the request was
issued, so it is appended to the call trace, and the loop continues. -/
def batchStep (store : List String → Except Unit (Nat × Nat))
    (acc : BatchResult) (batch_keys : List String) : BatchResult :=
  match store batch_keys with
  | .ok (d, e) =>
      { successful := acc.successful + d, failed := acc.failed + e,
        calls := acc.calls ++ [batch_keys] }
  | .error _ =>
      { successful := acc.successful, failed := acc.failed + batch_keys.length,
        calls := acc.calls ++ [batch_keys] }

/-- `S3Utils.delete_objects_batch` (s3_utils.py lines 189-230): early return
on an empty key list, otherwise the sequential chunk loop with
`batch_size = 1000`.  The `max_workers` argument is carried to mirror the
Python signature; the body never reads it. -/
def delete_objects_batch (store : List String → Except Unit (Nat × Nat))
    (keys : List String) (max_workers : Nat) : BatchResult :=
  if keys.isEmpty then { successful := 0, failed := 0, calls := [] }
  else (chunksOf 1000 keys).foldl (batchStep store)
    { successful := 0, failed := 0, calls := [] }

/-- The `Deleted`-list length a chunk contributes: the response count on a
successful call, nothing on a transport error. -/
def chunkDeleted (store : List String → Except Unit (Nat × Nat))
    (c : List String) : Nat :=
  match store c with
  | .ok (d, _) => d
  | .error _ => 0

/-- The failure count a chunk contributes: the `Errors`-list length on a
successful call, the whole chunk length on a transport error. -/
def chunkFailed (store : List String → Except Unit (Nat × Nat))
    (c : List String) : Nat :=
  match store c with
  | .ok (_, e) => e
  | .error _ => c.length

/-- Summary dict returned by `S3Cleaner.clean_objects` (the float field
`total_size_mb`, a display-only derivative of `total_size_bytes`, is not
modelled). -/
structure CleanResults where
  total_objects : Nat
  matched_objects : Nat
  total_size_bytes : Int
  deleted_objects : Nat
  failed_deletions : Nat
  dry_run : Bool
deriving DecidableEq, Repr

/-- Python `l[:m]` for an `int` bound `m`: `take m` when `m ≥ 0`, else all
but the last `-m` elements (clamped at zero by `Nat` subtraction). -/
def pySliceTo {α : Type} (l : List α) (m : Int) : List α :=
  if 0 ≤ m then l.take m.toNat else l.take (l.length - (-m).toNat)

/-- The max_deletions cap of `S3Cleaner.clean_objects` (s3_cleaner.py lines
81-84): when `max_deletions` is truthy (set and nonzero) and the matched
count exceeds it, the filtered list is re-bound to its slice
`filtered_objects[:max_deletions]`. -/
def deletion_plan (filtered_objects : List S3Object)
    (max_deletions : Option Int) : List S3Object :=
  if intTruthy max_deletions
      && decide ((filtered_objects.length : Int) > max_deletions.getD 0)
  then pySliceTo filtered_objects (max_deletions.getD 0)
  else filtered_objects

/-- `S3Cleaner.clean_objects` (s3_cleaner.py lines 36-131).  Environment
oracles: `dtparse` and `now` feed `parse_time_filter`; `store` answers
batch-delete requests; `all_objects` is the materialised
`list(self.list_objects())`.  The returned pair is the summary dict together
with the trace of batch-delete requests issued to the store during the call.
Filter parse exceptions propagate as `Except.error`.  Report generation
(`generate_report`) only writes a CSV and logs; it does not change the
summary and is not modelled. -/
def clean_objects (dtparse : String → Option Int) (now : Int)
    (store : List String → Except Unit (Nat × Nat))
    (all_objects : List S3Object) (dry_run : Bool)
    (older_than since : Option String)
    (exclude_patterns : Option (List String)) (suffix : Option String)
    (min_size max_size : Option String)
    (max_deletions : Option Int) (concurrency : Nat) (confirm : Bool) :
    Except String (CleanResults × List (List String)) :=
  match parse_time_filter dtparse now older_than since with
  | .error e => .error e
  | .ok (min_date, max_date) =>
  match parse_size_filter min_size max_size with
  | .error e => .error e
  | .ok (min_bytes, max_bytes) =>
      let filtered0 := filter_objects all_objects min_date max_date
        exclude_patterns none suffix none min_bytes max_bytes
      let filtered_objects := deletion_plan filtered0 max_deletions
      let total_size := (filtered_objects.map S3Object.size).sum
      let results : CleanResults :=
        { total_objects := all_objects.length
          matched_objects := filtered_objects.length
          total_size_bytes := total_size
          deleted_objects := 0
          failed_deletions := 0
          dry_run := dry_run && !confirm }
      if filtered_objects.isEmpty then .ok (results, [])
      else if dry_run && !confirm then .ok (results, [])
      else
        let keys_to_delete := filtered_objects.map S3Object.key
        let r := delete_objects_batch store keys_to_delete concurrency
        .ok ({ results with
                dry_run := false
                deleted_objects := r.successful
                failed_deletions := r.failed }, r.calls)

/-! ## Chunking lemmas -/

theorem chunksOf_nil {α : Type} : chunksOf 1000 ([] : List α) = [] := by
  norm_num [chunksOf, pyRangeStep]

theorem chunksOf1000_cons {α : Type} (l : List α) (hl : l ≠ []) :
    chunksOf 1000 l = l.take 1000 :: chunksOf 1000 (l.drop 1000) := by
  have hlen : 0 < l.length := List.length_pos.mpr hl
  have hcount : (l.length + 1000 - 1) / 1000
      = ((l.length - 1000 + 1000 - 1) / 1000) + 1 := by omega
  simp only [chunksOf, pyRangeStep, List.length_drop]
  rw [hcount, List.range_succ_eq_map]
  simp only [List.map_cons, List.map_map]
  refine congrArg₂ List.cons (by simp) ?_
  apply List.map_congr_left
  intro i _
  simp only [Function.comp_apply, List.drop_drop]
  have hidx : Nat.succ i * 1000 = i * 1000 + 1000 := by omega
  rw [hidx, Nat.add_comm (i * 1000) 1000]

theorem chunksOf_join {α : Type} (l : List α) : (chunksOf 1000 l).flatten = l := by
  by_cases h : l = []
  · subst h; rw [chunksOf_nil]; rfl
  · rw [chunksOf1000_cons l h, List.flatten_cons, chunksOf_join (l.drop 1000),
      List.take_append_drop]
termination_by l.length
decreasing_by
  simp only [List.length_drop]
  have := List.length_pos.mpr h
  omega

theorem chunksOf_length_le {α : Type} (l : List α) (c : List α)
    (hc : c ∈ chunksOf 1000 l) : c.length ≤ 1000 := by
  simp only [chunksOf, pyRangeStep, List.map_map, List.mem_map] at hc
  obtain ⟨i, _, rfl⟩ := hc
  simpa using List.length_take_le 1000 _

/-! ## Batch delete lemmas -/

theorem foldl_batchStep (store : List String → Except Unit (Nat × Nat))
    (cs : List (List String)) (acc : BatchResult) :
    (cs.foldl (batchStep store) acc).successful
        = acc.successful + (cs.map (chunkDeleted store)).sum
    ∧ (cs.foldl (batchStep store) acc).failed
        = acc.failed + (cs.map (chunkFailed store)).sum
    ∧ (cs.foldl (batchStep store) acc).calls = acc.calls ++ cs := by
  induction cs generalizing acc with
  | nil => simp
  | cons c rest ih =>
      simp only [List.foldl_cons, List.map_cons, List.sum_cons]
      obtain ⟨h1, h2, h3⟩ := ih (batchStep store acc c)
      refine ⟨?_, ?_, ?_⟩
      · rw [h1]
        cases hsc : store c with
        | ok p =>
            obtain ⟨d, e⟩ := p
            simp [batchStep, chunkDeleted, hsc] <;> omega
        | error u => simp [batchStep, chunkDeleted, hsc] <;> omega
      · rw [h2]
        cases hsc : store c with
        | ok p =>
            obtain ⟨d, e⟩ := p
            simp [batchStep, chunkFailed, hsc] <;> omega
        | error u => simp [batchStep, chunkFailed, hsc] <;> omega
      · rw [h3]
        cases hsc : store c with
        | ok p =>
            obtain ⟨d, e⟩ := p
            simp [batchStep, hsc]
        | error u => simp [batchStep, hsc]

theorem delete_objects_batch_spec (store : List String → Except Unit (Nat × Nat))
    (keys : List String) (w : Nat) :
    (delete_objects_batch store keys w).successful
        = ((chunksOf 1000 keys).map (chunkDeleted store)).sum
    ∧ (delete_objects_batch store keys w).failed
        = ((chunksOf 1000 keys).map (chunkFailed store)).sum
    ∧ (delete_objects_batch store keys w).calls = chunksOf 1000 keys := by
  unfold delete_objects_batch
  by_cases h : keys.isEmpty
  · have : keys = [] := List.isEmpty_iff.mp h
    subst this
    simp [chunksOf_nil]
  · simp only [h, Bool.false_eq_true, if_false]
    have := foldl_batchStep store (chunksOf 1000 keys)
      { successful := 0, failed := 0, calls := [] }
    simpa using this

theorem sum_map_add_distrib {α : Type} (l : List α) (f g : α → Nat) :
    (l.map f).sum + (l.map g).sum = (l.map (fun x => f x + g x)).sum := by
  induction l with
  | nil => simp
  | cons a rest ih => simp only [List.map_cons, List.sum_cons]; omega

theorem replicate_nonempty {α : Type} (n : Nat) (x : α) (hn : n ≠ 0) :
    List.replicate n x ≠ [] := by
  intro h
  have hl := congrArg List.length h
  simp only [List.length_replicate, List.length_nil] at hl
  exact hn hl

theorem chunksOf_replicate1500 {α : Type} (x : α) :
    chunksOf 1000 (List.replicate 1500 x)
      = [List.replicate 1000 x, List.replicate 500 x] := by
  have h1 : min 1000 1500 = 1000 := by omega
  have h2 : 1500 - 1000 = 500 := by omega
  have h3 : min 1000 500 = 500 := by omega
  have h4 : 500 - 1000 = 0 := by omega
  rw [chunksOf1000_cons _ (replicate_nonempty 1500 x (by norm_num)),
    List.take_replicate, List.drop_replicate, h1, h2,
    chunksOf1000_cons _ (replicate_nonempty 500 x (by norm_num)),
    List.take_replicate, List.drop_replicate, h3, h4,
    List.replicate_zero, chunksOf_nil]

/-- C4: `delete_objects_batch` splits its input key list into consecutive
chunks of at most 1000 keys and issues one store batch-delete call per chunk
(1500 keys produce exactly two calls, of 1000 and 500 keys); a chunk whose
store call raises a transport error contributes its whole length to the
failed count, and every chunk is still called and counted regardless of
earlier chunk outcomes (the per-chunk sums below range over all chunks). -/
theorem C4_batch_chunking (store : List String → Except Unit (Nat × Nat))
    (keys : List String) (max_workers : Nat) :
    (delete_objects_batch store keys max_workers).calls = chunksOf 1000 keys
    ∧ (chunksOf 1000 keys).flatten = keys
    ∧ (∀ c ∈ chunksOf 1000 keys, c.length ≤ 1000)
    ∧ ((delete_objects_batch store (List.replicate 1500 "k") max_workers).calls.map
        List.length = [1000, 500])
    ∧ (delete_objects_batch store keys max_workers).successful
        = ((chunksOf 1000 keys).map (chunkDeleted store)).sum
    ∧ (delete_objects_batch store keys max_workers).failed
        = ((chunksOf 1000 keys).map (chunkFailed store)).sum := by
  obtain ⟨hs, hf, hc⟩ := delete_objects_batch_spec store keys max_workers
  obtain ⟨_, _, hc2⟩ :=
    delete_objects_batch_spec store (List.replicate 1500 "k") max_workers
  refine ⟨hc, chunksOf_join keys,
    fun c hm => chunksOf_length_le keys c hm, ?_, hs, hf⟩
  rw [hc2, chunksOf_replicate1500]
  simp only [List.map_cons, List.map_nil, List.length_replicate]

/-- C4 witness: the theorem applied at a concrete store and key list. -/
theorem C4_batch_chunking_witness :
    (delete_objects_batch (fun c => Except.ok (c.length, 0)) ["a", "b"] 4).calls
        = chunksOf 1000 ["a", "b"]
    ∧ (["a", "b"] : List String).length ≤ 1000 :=
  ⟨(C4_batch_chunking (fun c => Except.ok (c.length, 0)) ["a", "b"] 4).1,
   (C4_batch_chunking (fun c => Except.ok (c.length, 0)) ["a", "b"] 4).2.2.1
     ["a", "b"] (by decide)⟩

/-- C5: for every key list, every store behaviour satisfying the
batch-delete response contract (every submitted key of a successful call is
reported in exactly one of the `Deleted` and `Errors` lists, so their
lengths add up to the chunk length), and every concurrency level, the
counts returned by `delete_objects_batch` satisfy
`succeeded + failed = attempted` where attempted is the number of submitted
keys. -/
theorem C5_counts_partition (store : List String → Except Unit (Nat × Nat))
    (keys : List String) (max_workers : Nat)
    (hstore : ∀ c d e, store c = Except.ok (d, e) → d + e = c.length) :
    (delete_objects_batch store keys max_workers).successful
      + (delete_objects_batch store keys max_workers).failed
      = keys.length := by
  obtain ⟨hs, hf, _⟩ := delete_objects_batch_spec store keys max_workers
  rw [hs, hf, sum_map_add_distrib]
  have hpt : ∀ c ∈ chunksOf 1000 keys,
      chunkDeleted store c + chunkFailed store c = c.length := by
    intro c _
    unfold chunkDeleted chunkFailed
    cases hsc : store c with
    | ok p =>
        obtain ⟨d, e⟩ := p
        simpa using hstore c d e hsc
    | error u => simp
  calc ((chunksOf 1000 keys).map
          fun c => chunkDeleted store c + chunkFailed store c).sum
      = ((chunksOf 1000 keys).map List.length).sum :=
        congrArg List.sum (List.map_congr_left hpt)
    _ = (chunksOf 1000 keys).flatten.length := (List.length_flatten _).symm
    _ = keys.length := by rw [chunksOf_join]

/-- C5 witness: the theorem applied at a concrete store that deletes every
submitted key, on a three-key list. -/
theorem C5_counts_partition_witness :
    (delete_objects_batch (fun c => Except.ok (c.length, 0))
        ["a", "b", "c"] 4).successful
      + (delete_objects_batch (fun c => Except.ok (c.length, 0))
        ["a", "b", "c"] 4).failed = 3 := by
  have h := C5_counts_partition (fun c => Except.ok (c.length, 0))
    ["a", "b", "c"] 4 (by intro c d e h; simp at h; omega)
  simpa using h

/-- C9: the result of `delete_objects_batch` is one and the same value for
any two `max_workers` arguments — the parameter is never consulted — and
the store is called on the consecutive chunks in plan order. -/
theorem C9_max_workers_ignored (store : List String → Except Unit (Nat × Nat))
    (keys : List String) (w1 w2 : Nat) :
    delete_objects_batch store keys w1 = delete_objects_batch store keys w2
    ∧ (delete_objects_batch store keys w1).calls = chunksOf 1000 keys :=
  ⟨rfl, (delete_objects_batch_spec store keys w1).2.2⟩

/-! ## Filter and cleaner lemmas -/

theorem filterKeep_trivial (o : S3Object) :
    filterKeep none none none none none none none none o = true := rfl

theorem filter_objects_trivial (objs : List S3Object) :
    filter_objects objs none none none none none none none none = objs := by
  unfold filter_objects
  have heq : filterKeep none none none none none none none none
      = fun _ => true := funext filterKeep_trivial
  rw [heq]
  exact List.filter_true objs

/-- C1: with `dry_run = true` and `confirm = false`, `clean_objects` never
issues a batch-delete request to the store (the call trace is empty), and
the returned summary has `deleted_objects = 0`, `failed_deletions = 0` and
`dry_run = true`. -/
theorem C1_dry_run_no_deletes (dtparse : String → Option Int) (now : Int)
    (store : List String → Except Unit (Nat × Nat))
    (all_objects : List S3Object) (older_than since : Option String)
    (exclude_patterns : Option (List String)) (suffix : Option String)
    (min_size max_size : Option String) (max_deletions : Option Int)
    (concurrency : Nat) (r : CleanResults) (t : List (List String))
    (h : clean_objects dtparse now store all_objects true older_than since
      exclude_patterns suffix min_size max_size max_deletions concurrency
      false = .ok (r, t)) :
    t = [] ∧ r.deleted_objects = 0 ∧ r.failed_deletions = 0
      ∧ r.dry_run = true := by
  unfold clean_objects at h
  cases hpt : parse_time_filter dtparse now older_than since with
  | error e => rw [hpt] at h; exact Except.noConfusion h
  | ok md =>
      obtain ⟨min_date, max_date⟩ := md
      rw [hpt] at h
      cases hps : parse_size_filter min_size max_size with
      | error e => rw [hps] at h; exact Except.noConfusion h
      | ok mb =>
          obtain ⟨min_bytes, max_bytes⟩ := mb
          rw [hps] at h
          simp only [Bool.not_false, Bool.and_true, Bool.and_self, if_true,
            ite_self, Except.ok.injEq, Prod.mk.injEq] at h
          obtain ⟨h1, h2⟩ := h
          subst h1
          exact ⟨h2.symm, rfl, rfl, rfl⟩

/-- C1 witness: the theorem applied at a concrete environment with one
object and no filters. -/
theorem C1_dry_run_no_deletes_witness :
    ([] : List (List String)) = []
    ∧ (⟨1, 1, 5, 0, 0, true⟩ : CleanResults).deleted_objects = 0
    ∧ (⟨1, 1, 5, 0, 0, true⟩ : CleanResults).failed_deletions = 0
    ∧ (⟨1, 1, 5, 0, 0, true⟩ : CleanResults).dry_run = true :=
  C1_dry_run_no_deletes (fun _ => none) 0 (fun _ => Except.error ())
    [⟨"a", 0, 5⟩] none none none none none none none 4 _ _ rfl

/-- C2 counterexample: `max_deletions = 0` is a set value, yet the cap
branch is skipped by Python truthiness, so a one-element plan has more than
`max_deletions` keys. -/
theorem C2_counterexample :
    ¬ (((deletion_plan [{ key := "a", lastModified := 0, size := 1 }]
        (some 0)).length : Int) ≤ 0) := by decide

/-- C2 (amended): for every set positive `max_deletions` the plan has at
most that many keys and is the `take` of the matched list; when
`max_deletions` is unset, or when the matched count is at most the cap, the
plan is exactly the matched list.  (A set cap of zero imposes no cap: see
the C10 theorem.) -/
theorem deletion_plan_take (l : List S3Object) (m : Int) (hm : 0 < m)
    (hgt : (l.length : Int) > m) :
    deletion_plan l (some m) = l.take m.toNat := by
  have hcond : (intTruthy (some m)
      && decide ((l.length : Int) > (some m : Option Int).getD 0)) = true := by
    simp only [intTruthy, Option.getD_some, Bool.and_eq_true, bne_iff_ne,
      ne_eq, decide_eq_true_eq]
    exact ⟨by omega, hgt⟩
  unfold deletion_plan pySliceTo
  rw [if_pos hcond, Option.getD_some, if_pos hm.le]

theorem deletion_plan_id (l : List S3Object) (m : Int)
    (hle : (l.length : Int) ≤ m) :
    deletion_plan l (some m) = l := by
  unfold deletion_plan
  rw [if_neg]
  intro hc
  simp only [intTruthy, Option.getD_some, Bool.and_eq_true, bne_iff_ne,
    ne_eq, decide_eq_true_eq] at hc
  omega

theorem C2_plan_cap (l : List S3Object) (m : Int) :
    (0 < m → ((deletion_plan l (some m)).length : Int) ≤ m)
    ∧ deletion_plan l none = l
    ∧ ((l.length : Int) ≤ m → deletion_plan l (some m) = l)
    ∧ (0 < m → (l.length : Int) > m →
        deletion_plan l (some m) = l.take m.toNat) := by
  refine ⟨?_, ?_, ?_, fun hm hgt => deletion_plan_take l m hm hgt⟩
  · intro hm
    by_cases hgt : (l.length : Int) > m
    · rw [deletion_plan_take l m hm hgt, List.length_take]
      push_cast
      omega
    · rw [deletion_plan_id l m (by omega)]
      omega
  · simp [deletion_plan, intTruthy]
  · exact deletion_plan_id l m

/-- C2 witness: the amended theorem applied at concrete lists and caps. -/
theorem C2_plan_cap_witness :
    ((deletion_plan [{ key := "a", lastModified := 0, size := 1 },
        { key := "b", lastModified := 0, size := 2 }] (some 1)).length : Int)
        ≤ 1
    ∧ deletion_plan [{ key := "a", lastModified := 0, size := 1 }] none
        = [{ key := "a", lastModified := 0, size := 1 }]
    ∧ deletion_plan [{ key := "a", lastModified := 0, size := 1 }] (some 5)
        = [{ key := "a", lastModified := 0, size := 1 }]
    ∧ deletion_plan [{ key := "a", lastModified := 0, size := 1 },
        { key := "b", lastModified := 0, size := 2 }] (some 1)
        = ([{ key := "a", lastModified := 0, size := 1 },
            { key := "b", lastModified := 0, size := 2 }].take
            ((1 : Int)).toNat) :=
  ⟨(C2_plan_cap _ 1).1 (by norm_num),
   (C2_plan_cap [{ key := "a", lastModified := 0, size := 1 }] 1).2.1,
   (C2_plan_cap _ 5).2.2.1 (by decide),
   (C2_plan_cap _ 1).2.2.2 (by norm_num) (by decide)⟩

theorem clean_objects_dry_eq (dtparse : String → Option Int) (now : Int)
    (store : List String → Except Unit (Nat × Nat))
    (all_objects : List S3Object) (older_than since : Option String)
    (exclude_patterns : Option (List String)) (suffix : Option String)
    (min_size max_size : Option String) (max_deletions : Option Int)
    (concurrency : Nat) (min_date max_date min_bytes max_bytes : Option Int)
    (hpt : parse_time_filter dtparse now older_than since
      = .ok (min_date, max_date))
    (hps : parse_size_filter min_size max_size
      = .ok (min_bytes, max_bytes)) :
    clean_objects dtparse now store all_objects true older_than since
      exclude_patterns suffix min_size max_size max_deletions concurrency
      false
    = .ok (⟨all_objects.length,
        (deletion_plan (filter_objects all_objects min_date max_date
          exclude_patterns none suffix none min_bytes max_bytes)
          max_deletions).length,
        ((deletion_plan (filter_objects all_objects min_date max_date
          exclude_patterns none suffix none min_bytes max_bytes)
          max_deletions).map S3Object.size).sum,
        0, 0, true⟩, []) := by
  unfold clean_objects
  simp only [hpt, hps, Bool.not_false, Bool.and_self, eq_self_iff_true,
    if_true, ite_self]

/-- C3 counterexample: 1500 matched objects (each of size 1) with
`max_deletions = 1000` — the summary reports `matched_objects = 1000` (the
post-truncation plan length) and `total_size_bytes = 1000` (summed over the
truncated plan), not the pre-truncation 1500. -/
theorem C3_counterexample :
    (clean_objects (fun _ => none) 0 (fun _ => Except.error ())
        (List.replicate 1500 (⟨"k", 0, 1⟩ : S3Object))
        true none none none none none none (some 1000) 4 false
      = Except.ok ((⟨1500, 1000, 1000, 0, 0, true⟩ : CleanResults), []))
    ∧ (1000 : Nat) ≠ 1500 := by
  refine ⟨?_, by norm_num⟩
  have hgt : ((List.replicate 1500 (⟨"k", 0, 1⟩ : S3Object)).length : Int)
      > 1000 := by
    rw [List.length_replicate]; norm_num
  have hplan : deletion_plan (List.replicate 1500 (⟨"k", 0, 1⟩ : S3Object))
      (some 1000) = List.replicate 1000 (⟨"k", 0, 1⟩ : S3Object) := by
    rw [deletion_plan_take _ 1000 (by norm_num) hgt]
    have h1000 : ((1000 : Int)).toNat = 1000 := rfl
    rw [h1000, List.take_replicate]
    norm_num
  rw [clean_objects_dry_eq (fun _ => none) 0 (fun _ => Except.error ())
      (List.replicate 1500 (⟨"k", 0, 1⟩ : S3Object)) none none none none
      none none (some 1000) 4 none none none none rfl rfl,
    filter_objects_trivial, hplan, List.length_replicate,
    List.length_replicate, List.map_replicate, List.sum_replicate]
  norm_num

/-- C3 (amended): the summary fields `matched_objects` and
`total_size_bytes` are computed after the max_deletions truncation: they
are the length of, and the size sum over, the truncated plan (so 1500
matched objects under a cap of 1000 are reported as 1000). -/
theorem C3_post_truncation_accounting (dtparse : String → Option Int)
    (now : Int) (store : List String → Except Unit (Nat × Nat))
    (all_objects : List S3Object) (dry_run : Bool)
    (older_than since : Option String)
    (exclude_patterns : Option (List String)) (suffix : Option String)
    (min_size max_size : Option String) (max_deletions : Option Int)
    (concurrency : Nat) (confirm : Bool)
    (min_date max_date min_bytes max_bytes : Option Int)
    (r : CleanResults) (t : List (List String))
    (hpt : parse_time_filter dtparse now older_than since
      = .ok (min_date, max_date))
    (hps : parse_size_filter min_size max_size = .ok (min_bytes, max_bytes))
    (h : clean_objects dtparse now store all_objects dry_run older_than
      since exclude_patterns suffix min_size max_size max_deletions
      concurrency confirm = .ok (r, t)) :
    r.matched_objects
      = (deletion_plan (filter_objects all_objects min_date max_date
          exclude_patterns none suffix none min_bytes max_bytes)
          max_deletions).length
    ∧ r.total_size_bytes
      = ((deletion_plan (filter_objects all_objects min_date max_date
          exclude_patterns none suffix none min_bytes max_bytes)
          max_deletions).map S3Object.size).sum := by
  unfold clean_objects at h
  simp only [hpt, hps] at h
  by_cases hemp : (deletion_plan (filter_objects all_objects min_date
      max_date exclude_patterns none suffix none min_bytes max_bytes)
      max_deletions).isEmpty = true
  · rw [if_pos hemp] at h
    simp only [Except.ok.injEq, Prod.mk.injEq] at h
    obtain ⟨h1, _⟩ := h
    subst h1
    exact ⟨rfl, rfl⟩
  · rw [if_neg hemp] at h
    by_cases hdry : (dry_run && !confirm) = true
    · rw [if_pos hdry] at h
      simp only [Except.ok.injEq, Prod.mk.injEq] at h
      obtain ⟨h1, _⟩ := h
      subst h1
      exact ⟨rfl, rfl⟩
    · rw [if_neg hdry] at h
      simp only [Except.ok.injEq, Prod.mk.injEq] at h
      obtain ⟨h1, _⟩ := h
      subst h1
      exact ⟨rfl, rfl⟩

/-- C3 witness: the amended theorem applied at a concrete run of three
matched objects under a cap of two. -/
theorem C3_post_truncation_accounting_witness :
    ((⟨3, 2, 3, 0, 0, true⟩ : CleanResults)).matched_objects
      = (deletion_plan (filter_objects
          [⟨"a", 0, 1⟩, ⟨"b", 0, 2⟩, ⟨"c", 0, 4⟩] none none none none none
          none none none) (some 2)).length
    ∧ ((⟨3, 2, 3, 0, 0, true⟩ : CleanResults)).total_size_bytes
      = ((deletion_plan (filter_objects
          [⟨"a", 0, 1⟩, ⟨"b", 0, 2⟩, ⟨"c", 0, 4⟩] none none none none none
          none none none) (some 2)).map S3Object.size).sum :=
  C3_post_truncation_accounting (fun _ => none) 0 (fun _ => Except.error ())
    [⟨"a", 0, 1⟩, ⟨"b", 0, 2⟩, ⟨"c", 0, 4⟩] true none none none none none
    none (some 2) 4 false none none none none _ _ rfl rfl rfl

/-- C6 counterexample: the source parses sizes through humanfriendly with
default arguments, whose unit semantics is decimal — `min_size = "1MB"`
parses to 1,000,000 bytes, not the binary 1,048,576 the claim states. -/
theorem C6_counterexample :
    parse_size_filter (some "1MB") none = Except.ok (some 1000000, none)
    ∧ (1000000 : Int) ≠ 1048576 :=
  ⟨rfl, by norm_num⟩

/-- C6 (amended): `parse_size_filter` parses with decimal (1000-based)
semantics for `KB`\/`MB`\/`GB` (binary applies only to IEC spellings such as
`MiB`), so `min_size = "1MB"` is 1,000,000 bytes; applied to objects of
sizes 500000, 1048576 and 2000000 bytes, exactly the latter two pass the
minimum-size filter; unparseable inputs are errors. -/
theorem C6_decimal_size_semantics :
    parse_size_filter (some "1MB") none = Except.ok (some 1000000, none)
    ∧ filter_objects
        [⟨"a", 0, 500000⟩, ⟨"b", 0, 1048576⟩, ⟨"c", 0, 2000000⟩]
        none none none none none none (some 1000000) none
      = [⟨"b", 0, 1048576⟩, ⟨"c", 0, 2000000⟩]
    ∧ parse_size_filter (some "1XB") none = Except.error "invalid size"
    ∧ parse_size "1MiB" = Except.ok 1048576 :=
  ⟨rfl, by decide, rfl, rfl⟩

theorem timeUnitSeconds_mul (u : Char) (n secs : Int)
    (h : timeUnitSeconds u 1 = some secs) :
    timeUnitSeconds u n = some (n * secs) := by
  unfold timeUnitSeconds at h ⊢
  by_cases h1 : u = 'd'
  · simp [h1] at h
    subst h
    rw [h1]
    simp
  · by_cases h2 : u = 'h'
    · simp [h1, h2] at h
      subst h
      rw [h2]
      simp [h1]
    · by_cases h3 : u = 'm'
      · simp [h1, h2, h3] at h
        subst h
        rw [h3]
        simp [h1, h2]
      · by_cases h4 : u = 'w'
        · simp [h1, h2, h3, h4] at h
          subst h
          rw [h4]
          simp [h1, h2, h3]
        · simp [h1, h2, h3, h4] at h

/-- C7: for an older_than string with a valid numeric part and a unit in
d\/h\/m\/w, `parse_time_filter` returns `max_date = now - n * unit-seconds`;
a unit outside the allowed set, or a numeric part that does not parse, is
an error; a truthy since string goes through the general date parser into
`min_date`, erroring on unparseable input. -/
theorem C7_parse_time_filter :
    (∀ (dtparse : String → Option Int) (now n : Int) (s : String)
        (u : Char) (secs : Int), s ≠ "" → pyInt (s.dropRight 1) = some n →
        s.back.toLower = u → timeUnitSeconds u 1 = some secs →
        parse_time_filter dtparse now (some s) none
          = .ok (none, some (now - n * secs)))
    ∧ (∀ (dtparse : String → Option Int) (now : Int) (s : String),
        s ≠ "" → timeUnitSeconds s.back.toLower 1 = none →
        parse_time_filter dtparse now (some s) none
          = .error "invalid time format")
    ∧ (∀ (dtparse : String → Option Int) (now : Int) (s : String),
        s ≠ "" → pyInt (s.dropRight 1) = none →
        parse_time_filter dtparse now (some s) none
          = .error "invalid time format")
    ∧ (∀ (dtparse : String → Option Int) (now d : Int) (str : String),
        str ≠ "" → dtparse str = some d →
        parse_time_filter dtparse now none (some str)
          = .ok (some d, none))
    ∧ (∀ (dtparse : String → Option Int) (now : Int) (str : String),
        str ≠ "" → dtparse str = none →
        parse_time_filter dtparse now none (some str)
          = .error "invalid date format") := by
  have hbne : ∀ s : String, s ≠ "" → (s != "") = true := by
    intro s hs
    simp only [bne_iff_ne, ne_eq]
    exact hs
  refine ⟨?_, ?_, ?_, ?_, ?_⟩
  · intro dtparse now n s u secs hne hnum hu husec
    unfold parse_time_filter
    simp [strTruthy, hbne s hne, hnum, hu,
      timeUnitSeconds_mul u n secs husec]
  · intro dtparse now s hne huni
    unfold parse_time_filter
    cases hnum : pyInt (s.dropRight 1) with
    | none => simp [strTruthy, hbne s hne, hnum]
    | some v =>
        have huniv : timeUnitSeconds s.back.toLower v = none := by
          unfold timeUnitSeconds at huni ⊢
          by_cases h1 : s.back.toLower = 'd'
          · simp [h1] at huni
          · by_cases h2 : s.back.toLower = 'h'
            · simp [h1, h2] at huni
            · by_cases h3 : s.back.toLower = 'm'
              · simp [h1, h2, h3] at huni
              · by_cases h4 : s.back.toLower = 'w'
                · simp [h1, h2, h3, h4] at huni
                · simp [h1, h2, h3, h4]
        simp [strTruthy, hbne s hne, hnum, huniv]
  · intro dtparse now s hne hnum
    unfold parse_time_filter
    simp [strTruthy, hbne s hne, hnum]
  · intro dtparse now d str hne hd
    unfold parse_time_filter
    simp [strTruthy, hbne str hne, hd]
  · intro dtparse now str hne hd
    unfold parse_time_filter
    simp [strTruthy, hbne str hne, hd]

/-- C7 witness: the theorem applied at "7d" (a week of seconds back from
now = 0), at an invalid unit, at an invalid numeric part, and at parseable
and unparseable since strings. -/
theorem C7_parse_time_filter_witness :
    parse_time_filter (fun _ => none) 0 (some "7d") none
      = Except.ok (none, some (0 - 7 * 86400))
    ∧ parse_time_filter (fun _ => none) 0 (some "7x") none
      = Except.error "invalid time format"
    ∧ parse_time_filter (fun _ => none) 0 (some "zzd") none
      = Except.error "invalid time format"
    ∧ parse_time_filter
        (fun s => if s = "2024-01-01" then some 1704067200 else none) 0
        none (some "2024-01-01") = Except.ok (some 1704067200, none)
    ∧ parse_time_filter (fun _ => none) 0 none (some "garbage")
      = Except.error "invalid date format" :=
  ⟨C7_parse_time_filter.1 (fun _ => none) 0 7 "7d" 'd' 86400 (by decide)
      (by decide) (by decide) (by decide),
   C7_parse_time_filter.2.1 (fun _ => none) 0 "7x" (by decide) (by decide),
   C7_parse_time_filter.2.2.1 (fun _ => none) 0 "zzd" (by decide)
      (by decide),
   C7_parse_time_filter.2.2.2.1
      (fun s => if s = "2024-01-01" then some 1704067200 else none) 0
      1704067200 "2024-01-01" (by decide) (by decide),
   C7_parse_time_filter.2.2.2.2 (fun _ => none) 0 "garbage" (by decide)
      rfl⟩

/-- C8: applying the exclude-substring filter and then the suffix filter
yields the same result as the reverse order — `filter_objects` keeps
exactly the records passing the conjunction of its predicates, so the two
passes commute. -/
theorem C8_filter_order_independent (objs : List S3Object)
    (exclude_patterns : Option (List String)) (suffix : Option String) :
    filter_objects (filter_objects objs none none exclude_patterns none
      none none none none) none none none none suffix none none none
    = filter_objects (filter_objects objs none none none none suffix none
      none none) none none exclude_patterns none none none none none := by
  unfold filter_objects
  rw [List.filter_filter, List.filter_filter]
  apply List.filter_congr
  intro a _
  exact Bool.and_comm _ _

/-- C10: a size bound equal to 0 is treated as absent by Python truthiness
(`if min_size and ...`): with `min_size = 0` or `max_size = 0` no record is
rejected by that bound, and a `max_deletions` of 0 imposes no cap. -/
theorem C10_zero_bound_is_unset (objs l : List S3Object) :
    filter_objects objs none none none none none none (some 0) none = objs
    ∧ filter_objects objs none none none none none none none (some 0)
        = objs
    ∧ deletion_plan l (some 0) = l := by
  refine ⟨?_, ?_, ?_⟩
  · unfold filter_objects
    have heq : filterKeep none none none none none none (some 0) none
        = fun _ => true := funext fun o => rfl
    rw [heq]
    exact List.filter_true objs
  · unfold filter_objects
    have heq : filterKeep none none none none none none none (some 0)
        = fun _ => true := funext fun o => rfl
    rw [heq]
    exact List.filter_true objs
  · simp [deletion_plan, intTruthy]

end S3Scripts
